import Mathlib

/-
Verification of the `maybe` Go package (Option / Nullable containers with a
database and JSON coercion engine).

This file shallowly embeds the package's data model and operations:

  * `GoOption V`   embeds `Option[T]`   (option.go)   — fields `value`, `has`.
  * `Nullable V`   embeds `Nullable[T]` (nullable.go) — fields `value`, `valid`.
  * `GoVal F`      embeds the dynamic `driver.Value` vocabulary seen by
                   `Scan` (`nil`, `int64`, `float64`, `bool`, `[]byte`,
                   `string`, `time.Time`).  `F` is the representation chosen
                   for `float64` values; float-dependent operations are
                   supplied as explicit function parameters (`Float64Ops`),
                   so no floating-point arithmetic is modelled here.
  * Machine integers are modelled as `Int` with explicit width arithmetic
    (`% 2 ^ bits`) where Go conversions can wrap.

Element types are embedded per reflect *kind* category — integer kinds
(`IntKind`), `string`, float kinds (`FloatKind`) — mirroring the `switch
destType.Kind()` dispatch in `Scan` (nullable.go:215).  The `sql.Scanner`
and `driver.Valuer` hooks are not modelled: the claims under study concern
element types (built-in integers, strings, floats) that do not implement
those interfaces, so the hook branches (nullable.go:145, nullable.go:194)
are never taken.
-/

/-! ## Integer kinds (reflect.Int .. reflect.Uint64) -/

/-- The ten Go integer kinds handled by `Scan`'s integer branch
(nullable.go:217-218). -/
inductive IntKind
  | int | int8 | int16 | int32 | int64
  | uint | uint8 | uint16 | uint32 | uint64
deriving DecidableEq, Repr

/-- Signed kinds are `reflect.Int .. reflect.Int64`; the code tests this with
`destType.Kind() >= reflect.Int && destType.Kind() <= reflect.Int64`
(nullable.go:237). -/
def IntKind.signed : IntKind → Bool
  | .int | .int8 | .int16 | .int32 | .int64 => true
  | _ => false

/-- Bit width of each kind.  Go's `int`/`uint` are platform-sized; the
package targets 64-bit platforms, where both are 64 bits wide. -/
def IntKind.bits : IntKind → Nat
  | .int => 64 | .int8 => 8 | .int16 => 16 | .int32 => 32 | .int64 => 64
  | .uint => 64 | .uint8 => 8 | .uint16 => 16 | .uint32 => 32 | .uint64 => 64

/-- `math.MaxInt64`. -/
def maxInt64 : Int := 2 ^ 63 - 1

/-- Smallest value of the destination width according to the spec
("for signed destinations, value must lie within that width's min/max;
for unsigned destinations, value must be non-negative").  This is the
*specified* range, used to state range-membership of concrete inputs;
the code's own (buggy) computation is `reflectZeroInt`/`reflectNewElemInt`
below. -/
def IntKind.specMin (k : IntKind) : Int :=
  if k.signed then -(2 ^ (k.bits - 1)) else 0

/-- Largest value of the destination width according to the spec
(see `IntKind.specMin`). -/
def IntKind.specMax (k : IntKind) : Int :=
  if k.signed then 2 ^ (k.bits - 1) - 1 else 2 ^ k.bits - 1

/-- Embeds `reflect.Zero(destType).Int()` (nullable.go:238): `reflect.Zero`
returns the *zero value* of the type, so `.Int()` is `0` for every signed
kind — not the kind's minimum. -/
def reflectZeroInt (_k : IntKind) : Int := 0

/-- Embeds `reflect.New(destType).Elem().Int()` (nullable.go:239):
`reflect.New(t).Elem()` is a freshly allocated zero value, so `.Int()` is
again `0` — not the kind's maximum. -/
def reflectNewElemInt (_k : IntKind) : Int := 0

/-- Embeds `reflect.New(destType).Elem().OverflowUint(math.MaxUint64)`
(nullable.go:249): `OverflowUint(x)` depends only on the value's *type* and
reports whether the `uint64` `x` cannot be represented in it; for
`math.MaxUint64` that is exactly "the kind is narrower than 64 bits". -/
def overflowUintMaxUint64 (k : IntKind) : Bool := k.bits < 64

/-- Go integer conversion semantics (`sourceVal.Convert(destType)` on an
`int64` source): truncate to the destination width, reinterpreting the
result as signed or unsigned. -/
def convertIntTo (k : IntKind) (i : Int) : Int :=
  let m := i % (2 ^ k.bits)
  if k.signed ∧ m ≥ 2 ^ (k.bits - 1) then m - 2 ^ k.bits else m

/-! ## strconv.ParseInt(s, 10, 64) -/

/-- Base-10 digit accumulation over a character list; `none` when a
non-digit appears or the list is empty. -/
def parseDigits : List Char → Nat → Option Nat
  | [], acc => some acc
  | c :: rest, acc =>
      if c.isDigit then parseDigits rest (acc * 10 + (c.toNat - 48))
      else none

/-- Embeds `strconv.ParseInt(string(v), 10, 64)` (nullable.go:228):
an optional leading sign followed by at least one base-10 digit; values
outside the `int64` range produce a range error.  `none` models any
returned error. -/
def parseInt64 (s : String) : Option Int :=
  let cs := s.toList
  let signAndDigits : Bool × List Char :=
    match cs with
    | '+' :: rest => (false, rest)
    | '-' :: rest => (true, rest)
    | rest => (false, rest)
  match signAndDigits with
  | (neg, ds) =>
    match ds with
    | [] => none
    | _ :: _ =>
      match parseDigits ds 0 with
      | none => none
      | some m =>
        let v : Int := if neg then -(m : Int) else (m : Int)
        if v < -(2 ^ 63) ∨ v > 2 ^ 63 - 1 then none else some v

/-! ## The dynamic source vocabulary -/

/-- The `driver.Value` vocabulary a `Scan` source can belong to
(`nil`, `int64`, `float64`, `bool`, `[]byte`, `string`, `time.Time`).
`F` is the chosen representation of `float64` values; `vTime` is abstract.
`vBytes` models a non-nil byte slice (a nil slice would be caught by the
`IsNil` test like `vNull`). -/
inductive GoVal (F : Type)
  | vNull
  | vInt64 (i : Int)
  | vFloat64 (f : F)
  | vBool (b : Bool)
  | vBytes (s : String)
  | vString (s : String)
  | vTime
deriving DecidableEq

/-- Errors returned by `Scan` (nullable.go:184-299), carrying the same data
the `fmt.Errorf` messages interpolate. -/
inductive ScanErr (F : Type)
  | parseIntFailed (s : String)              -- "failed to parse integer from text: %w"
  | unsupportedIntSource (src : GoVal F)     -- "unsupported source type %T for integer conversion"
  | overflowSigned (v : Int) (k : IntKind)   -- "value %d overflows destination type %s"
  | negativeUnsigned (v : Int) (k : IntKind) -- "negative value %d for unsigned type %s"
  | overflowUnsigned (v : Int) (k : IntKind) -- "value %d overflows unsigned type %s"
  | unsupportedStringSource (src : GoVal F)  -- "unsupported source type %T for string conversion"
  | parseFloatFailed (s : String)            -- "failed to parse float from text: %w"
  | unsupportedFloatSource (src : GoVal F)   -- "unsupported source type %T for float conversion"
  | overflowFloat32                          -- "value %f overflows float32 range"
  | cannotScan (src : GoVal F)               -- "cannot scan %T into Nullable[%T]"
deriving DecidableEq

/-- Outcome of decoding one non-nil source into one element category:
success with the value to store, an error return, or a runtime panic. -/
inductive ScanOutcome (F V : Type)
  | ok (v : V)
  | err (e : ScanErr F)
  | panicked
deriving DecidableEq

/-! ## Scan: integer destinations (nullable.go:215-256) -/

/-- The two `reflect`-based range checks `Scan` performs after obtaining a
64-bit integer (nullable.go:237-253).  Signed kinds are checked against
`reflectZeroInt`/`reflectNewElemInt` (both `0`); unsigned kinds are checked
for negativity and then against `overflowUintMaxUint64`, which ignores the
value entirely. -/
def intRangeCheck {F : Type} (k : IntKind) (intVal : Int) : Option (ScanErr F) :=
  if k.signed then
    if intVal < reflectZeroInt k ∨ intVal > reflectNewElemInt k then
      some (.overflowSigned intVal k)
    else none
  else
    if intVal < 0 then some (.negativeUnsigned intVal k)
    else if overflowUintMaxUint64 k then some (.overflowUnsigned intVal k)
    else none

/-- Decoding a non-nil source into an integer destination kind `k`:
the direct type-assertion fast path `value.(T)` (nullable.go:204) succeeds
exactly when `T` is `int64` and the driver value is an `int64`; otherwise
the reflection branch (nullable.go:217-256) obtains a 64-bit integer from
an `int64` or `[]byte` source, range-checks it, and finally executes
`sourceVal.Convert(destType)` on the *original* source value.  For a
`[]byte` source that `reflect.Value.Convert` call panics, because Go
permits no conversion from `[]byte` to an integer type. -/
def scanIntVal {F : Type} (k : IntKind) (src : GoVal F) : ScanOutcome F Int :=
  match k, src with
  | .int64, .vInt64 i => .ok i
  | _, _ =>
    match src with
    | .vInt64 i =>
        match intRangeCheck k i with
        | some e => .err e
        | none => .ok (convertIntTo k i)
    | .vBytes s =>
        match parseInt64 s with
        | none => .err (.parseIntFailed s)
        | some i =>
            match intRangeCheck k i with
            | some e => .err e
            | none => .panicked
    | other => .err (.unsupportedIntSource other)

/-! ## Scan: string destinations (nullable.go:259-265) -/

/-- Decoding a non-nil source into a `string` destination: the fast path
`value.(T)` (nullable.go:204) catches a `string` source; the reflection
branch accepts a `[]byte` source reinterpreted as text and rejects every
other category. -/
def scanStringVal {F : Type} (src : GoVal F) : ScanOutcome F String :=
  match src with
  | .vString s => .ok s
  | .vBytes b => .ok b
  | other => .err (.unsupportedStringSource other)

/-! ## Scan: float destinations (nullable.go:268-291) -/

/-- The two float destination kinds. -/
inductive FloatKind
  | float32 | float64
deriving DecidableEq, Repr

/-- Floating-point operations `Scan`'s float branch depends on, supplied
abstractly over the chosen `float64` representation `F`:
`strconv.ParseFloat(string(v), 64)` (`none` models an error), the two
comparisons of the `float32` range check `floatVal < -math.MaxFloat32` and
`floatVal > math.MaxFloat32`, and the `float64 → float32` conversion
performed by `Convert` when the destination is `float32`. -/
structure Float64Ops (F : Type) where
  parseFloat : String → Option F
  ltNegMaxFloat32 : F → Bool
  gtMaxFloat32 : F → Bool
  toFloat32 : F → F

/-- Decoding a non-nil source into a float destination kind: the fast path
catches `T = float64` with a `float64` source; the reflection branch
accepts a `float64` or `[]byte` source, range-checks `float32`
destinations, and converts. -/
def scanFloatVal {F : Type} (ops : Float64Ops F) (k : FloatKind) (src : GoVal F) :
    ScanOutcome F F :=
  match k, src with
  | .float64, .vFloat64 f => .ok f
  | _, _ =>
    let check (f : F) : ScanOutcome F F :=
      if k = .float32 then
        if ops.ltNegMaxFloat32 f || ops.gtMaxFloat32 f then .err .overflowFloat32
        else .ok (ops.toFloat32 f)
      else .ok f
    match src with
    | .vFloat64 f => check f
    | .vBytes s =>
        match ops.parseFloat s with
        | none => .err (.parseFloatFailed s)
        | some f => check f
    | other => .err (.unsupportedFloatSource other)

/-- Decoding into a destination whose kind is none of the handled
categories: the `default` branch of the kind switch (nullable.go:293-294)
fails unconditionally. -/
def scanOtherVal {F V : Type} (src : GoVal F) : ScanOutcome F V :=
  .err (.cannotScan src)

/-! ## The Nullable container and its Scan entry point -/

/-- Embeds `Nullable[T]` (nullable.go:19-22). -/
structure Nullable (V : Type) where
  value : V
  valid : Bool
deriving DecidableEq, Repr

/-- `NullableOf` (nullable.go:25-27). -/
def NullableOf {V : Type} (v : V) : Nullable V := ⟨v, true⟩

/-- `Null` (nullable.go:30-33): `var zero T` is passed explicitly as the
element type's zero value. -/
def Null {V : Type} (zero : V) : Nullable V := ⟨zero, false⟩

/-- `NullableFromPtr` (nullable.go:37-42); a Go pointer `*T` is embedded as
`Option V`, `none` being `nil` (the `IsNil` test). -/
def NullableFromPtr {V : Type} (zero : V) (ptr : Option V) : Nullable V :=
  match ptr with
  | none => Null zero
  | some v => NullableOf v

/-- `ToPtr` (nullable.go:69-74). -/
def Nullable.ToPtr {V : Type} (n : Nullable V) : Option V :=
  if n.valid then some n.value else none

/-- Result of one `Scan` call: the container state after the call, the
returned error (if any), and whether the call panicked (in which case
`state` is the container at the moment of the panic). -/
structure ScanRet (F V : Type) where
  state : Nullable V
  error : Option (ScanErr F)
  panicked : Bool
deriving DecidableEq

/-- The body of `Scan` (nullable.go:184-299) for an element type that does
not implement `sql.Scanner`, with the per-category decoding factored into
`dec` (one of `scanIntVal k`, `scanStringVal`, `scanFloatVal ops k`,
`scanOtherVal`): a nil source clears the container and zeroes the value
(nullable.go:186-190); otherwise the category decode runs, and only on its
success are `n.value` (nullable.go:256/262/291) and then `n.valid = true`
(nullable.go:297) assigned — every error `return` precedes both
assignments, and the `Convert` panic fires before the assignment it
feeds, so on an error or panic the container is exactly as before.
`scanApply` is the tail of that body: how one decode outcome updates the
container (success assigns value and validity; error and panic leave it). -/
def scanApply {F V : Type} (n : Nullable V) : ScanOutcome F V → ScanRet F V
  | .ok v => ⟨⟨v, true⟩, none, false⟩
  | .err e => ⟨n, some e, false⟩
  | .panicked => ⟨n, none, true⟩

/-- The entry of `Scan` (nullable.go:184-208): a nil source clears the
container and zeroes the value; a non-nil source is decoded per the
destination's category and applied via `scanApply`. -/
def nullableScan {F V : Type} (zero : V) (dec : GoVal F → ScanOutcome F V)
    (n : Nullable V) (src : GoVal F) : ScanRet F V :=
  match src with
  | .vNull => ⟨⟨zero, false⟩, none, false⟩
  | _ => scanApply n (dec src)

/-! ## Value (driver encode) for unsigned element types (nullable.go:137-171) -/

/-- Errors returned by `Value`. -/
inductive ValueErr
  | unsignedOverflow (u : Nat)   -- "unsigned integer overflow: %v exceeds int64 maximum"
deriving DecidableEq

/-- `Value` on a `Nullable` whose element type is an unsigned integer kind
(the value is a `Nat` below `2 ^ width`): an invalid container yields SQL
NULL (nullable.go:139-141); otherwise the reflection branch for
`reflect.Uint*` (nullable.go:165-171) widens `rv.Uint()` to `uint64`,
fails when it exceeds `math.MaxInt64`, and otherwise returns it as an
`int64` driver value. -/
def nullableValueUint (n : Nullable Nat) : Except ValueErr (Option Int) :=
  if n.valid = false then .ok none
  else if (n.value : Int) > maxInt64 then .error (.unsignedOverflow n.value)
  else .ok (some (n.value : Int))

/-! ## The Option container (option.go) -/

/-- Embeds `Option[T]` (option.go:6-9); named `GoOption` because `Option`
is taken by the Lean prelude. -/
structure GoOption (V : Type) where
  value : V
  has : Bool
deriving DecidableEq, Repr

/-- `Some` (option.go:12-14). -/
def Some {V : Type} (v : V) : GoOption V := ⟨v, true⟩

/-- `None` (option.go:17-20): `var value T` is passed explicitly as the
element type's zero value. -/
def None {V : Type} (zero : V) : GoOption V := ⟨zero, false⟩

/-- `FromPtr` (option.go:23-28); a Go pointer `*T` is embedded as
`Option V`, `none` being `nil` (the `IsNil` test). -/
def FromPtr {V : Type} (zero : V) (ptr : Option V) : GoOption V :=
  match ptr with
  | none => None zero
  | some v => Some v

/-- `Set` (option.go:31-36): both branches leave `has = true` and store
`v`. -/
def GoOption.Set {V : Type} (_o : GoOption V) (v : V) : GoOption V := ⟨v, true⟩

/-- `Unset` (option.go:39-45): both branches leave `has = false` and reset
the value to zero. -/
def GoOption.Unset {V : Type} (zero : V) (_o : GoOption V) : GoOption V :=
  ⟨zero, false⟩

/-- `Ptr` (option.go:71-76): `&o.value` on the value-receiver copy when
present, `nil` otherwise.  The embedded pointer denotes the cell it
targets. -/
def GoOption.Ptr {V : Type} (o : GoOption V) : Option V :=
  if o.has then some o.value else none

/-- The single abort-style failure value, `ErrMissingValue` (errors.go:8),
as thrown by `panic`. -/
inductive GoPanic
  | missingValue
deriving DecidableEq

/-- `Unwrap` (option.go:79-84): `panic(ErrMissingValue)` — modelled as
`Except.error` — when absent, the stored value otherwise.  The receiver is
a value copy, so the call cannot alter the caller's container. -/
def GoOption.Unwrap {V : Type} (o : GoOption V) : Except GoPanic V :=
  if o.has = false then .error .missingValue else .ok o.value

/-! ## JSON codec (option.go:111-135, nullable.go:108-133) -/

/-- `json.Marshal(nil)`: the JSON literal `null`. -/
def jsonNullLiteral : String := "null"

/-- Result of one `UnmarshalJSON` call: the container state after the call
and whether an element-decode error was returned. -/
structure UnmarshalRet (C : Type) where
  state : C
  errored : Bool
deriving DecidableEq

/-- `Option.MarshalJSON` (option.go:111-116): `null` when absent, the
element type's own JSON encoding (`enc`, embedding `json.Marshal` at the
element type) when present. -/
def GoOption.MarshalJSON {V : Type} (enc : V → String) (o : GoOption V) : String :=
  if o.has = false then jsonNullLiteral else enc o.value

/-- `Option.UnmarshalJSON` (option.go:119-135): the literal `null` clears
presence and zeroes the value; otherwise the element type's own decoder
(`dec`, embedding `json.Unmarshal` at the element type, `none` on error)
runs — on its error the container is untouched and the error propagates,
on success the value is stored and marked present. -/
def GoOption.UnmarshalJSON {V : Type} (zero : V) (dec : String → Option V)
    (o : GoOption V) (data : String) : UnmarshalRet (GoOption V) :=
  if data = "null" then ⟨⟨zero, false⟩, false⟩
  else
    match dec data with
    | none => ⟨o, true⟩
    | some v => ⟨⟨v, true⟩, false⟩

/-- `Nullable.MarshalJSON` (nullable.go:108-113): same shape as the Option
codec. -/
def Nullable.MarshalJSON {V : Type} (enc : V → String) (n : Nullable V) : String :=
  if n.valid = false then jsonNullLiteral else enc n.value

/-- `Nullable.UnmarshalJSON` (nullable.go:117-133): same shape as the
Option codec. -/
def Nullable.UnmarshalJSON {V : Type} (zero : V) (dec : String → Option V)
    (n : Nullable V) (data : String) : UnmarshalRet (Nullable V) :=
  if data = "null" then ⟨⟨zero, false⟩, false⟩
  else
    match dec data with
    | none => ⟨n, true⟩
    | some v => ⟨⟨v, true⟩, false⟩

/-! ## Equals (nullable.go:89-104) -/

/-- The two `reflect` operations `Equals` depends on, over the element
representation `V`: `typeOf v` embeds `reflect.TypeOf(v).Comparable()` —
`none` when `reflect.TypeOf` returns a nil `reflect.Type` (the element
type is an interface type and `v` is a nil interface value), otherwise
`some c` with `c` the dynamic type's comparability; `deepEqual` embeds
`reflect.DeepEqual`. -/
structure ReflectOps (V : Type) where
  typeOf : V → Option Bool
  deepEqual : V → V → Bool

/-- Result of one `Equals` call: a boolean, or a runtime panic. -/
inductive EqualsRet
  | val (b : Bool)
  | panicked
deriving DecidableEq

/-- `Equals` (nullable.go:89-104): mismatched validity is unequal; two
invalid containers are equal; for two valid containers the receiver's
value is asked for its type (`reflect.TypeOf(n.value)`) — calling
`Comparable()` on the nil `reflect.Type` obtained from a nil interface
value panics — a non-comparable type is conservatively unequal, and a
comparable one defers to `reflect.DeepEqual`. -/
def Nullable.Equals {V : Type} (ops : ReflectOps V) (n other : Nullable V) :
    EqualsRet :=
  if n.valid ≠ other.valid then .val false
  else if n.valid = false then .val true
  else
    match ops.typeOf n.value with
    | none => .panicked
    | some c =>
      if c = false then .val false
      else .val (ops.deepEqual n.value other.value)

/-! ## IsZero and FirstNonZero (methods.go) -/

/-- `IsZero` (methods.go:7-9): `reflect.ValueOf(v).IsZero()` holds exactly
when `v` equals its type's zero value, passed here explicitly. -/
def IsZero {V : Type} [DecidableEq V] (zero : V) (v : V) : Bool := v = zero

/-- `FirstNonZero` (methods.go:30-39) as written: the loop body is
`if IsZero(v) { return v, true }`, so the function returns the first value
that IS zero (with `true`), and `(zero, false)` only when every value is
non-zero (or the list is empty). -/
def FirstNonZero {V : Type} [DecidableEq V] (zero : V) : List V → V × Bool
  | [] => (zero, false)
  | v :: rest => if IsZero zero v then (v, true) else FirstNonZero zero rest

/-- Modelled from the spec: the behavior `FirstNonZero`'s own doc comment
(methods.go:27-28, "returns the first non-zero value from the provided
values; if all values are zero, returns the zero value") and its tests
(methods_test.go:52-99) describe — returns the first value that is NOT
zero, and `(zero, false)` when all are zero. -/
def firstNonZeroSpec {V : Type} [DecidableEq V] (zero : V) : List V → V × Bool
  | [] => (zero, false)
  | v :: rest => if IsZero zero v then firstNonZeroSpec zero rest else (v, true)

/-! ## Operation sequences over the containers (for the absent-implies-zero
invariant) -/

/-- The mutating public operations on `Option[T]`: `Set`, `Unset`, and
`UnmarshalJSON` with some payload.  The read-only operations (`IsSome`,
`Value`, `Ptr`, `Unwrap`, ...) take value receivers and cannot change the
container. -/
inductive OptionOp (V : Type)
  | set (v : V)
  | unset
  | unmarshal (data : String)

/-- One mutating operation applied to an `Option[T]` container. -/
def OptionOp.apply {V : Type} (zero : V) (dec : String → Option V)
    (o : GoOption V) : OptionOp V → GoOption V
  | .set v => o.Set v
  | .unset => GoOption.Unset zero o
  | .unmarshal data => (o.UnmarshalJSON zero dec data).state

/-- A sequence of mutating operations run left to right on an `Option[T]`
container. -/
def runOptionOps {V : Type} (zero : V) (dec : String → Option V)
    (init : GoOption V) (ops : List (OptionOp V)) : GoOption V :=
  ops.foldl (fun o op => op.apply zero dec o) init

/-- The mutating public operations on `Nullable[T]`: `Scan` with some
source and `UnmarshalJSON` with some payload (the container has no
in-place set/clear). -/
inductive NullableOp (F V : Type)
  | scan (src : GoVal F)
  | unmarshal (data : String)

/-- One mutating operation applied to a `Nullable[T]` container, with the
per-category `Scan` decode `dec` and the element JSON decoder `jdec`. -/
def NullableOp.apply {F V : Type} (zero : V) (dec : GoVal F → ScanOutcome F V)
    (jdec : String → Option V) (n : Nullable V) : NullableOp F V → Nullable V
  | .scan src => (nullableScan zero dec n src).state
  | .unmarshal data => (n.UnmarshalJSON zero jdec data).state

/-- A sequence of mutating operations run left to right on a `Nullable[T]`
container. -/
def runNullableOps {F V : Type} (zero : V) (dec : GoVal F → ScanOutcome F V)
    (jdec : String → Option V) (init : Nullable V) (ops : List (NullableOp F V)) :
    Nullable V :=
  ops.foldl (fun n op => op.apply zero dec jdec n) init

/-- The absent-implies-zero invariant for `Option[T]` containers. -/
def GoOption.invZero {V : Type} (zero : V) (o : GoOption V) : Prop :=
  o.has = false → o.value = zero

/-- The absent-implies-zero invariant for `Nullable[T]` containers. -/
def Nullable.invZero {V : Type} (zero : V) (n : Nullable V) : Prop :=
  n.valid = false → n.value = zero

/-- The possible results of the `Option[T]` constructors: `Some`, `None`,
or `FromPtr` on any pointer. -/
def optionCtorResult {V : Type} (zero : V) (o : GoOption V) : Prop :=
  (∃ v, o = Some v) ∨ o = None zero ∨ (∃ p, o = FromPtr zero p)

/-- The possible results of the `Nullable[T]` constructors: `NullableOf`,
`Null`, or `NullableFromPtr` on any pointer. -/
def nullableCtorResult {V : Type} (zero : V) (n : Nullable V) : Prop :=
  (∃ v, n = NullableOf v) ∨ n = Null zero ∨ (∃ p, n = NullableFromPtr zero p)

/-! ## Pointer views (for the pointer round trips) -/

/-- The two memory locations in play after `p := o.Ptr()` / `p :=
n.ToPtr()`: the original container and the cell `p` targets (`none` when
`p` is nil).  `Ptr`/`ToPtr` take value receivers, so the cell is a field
of a *copy* of the container — a location distinct from the original's
fields. -/
structure PtrView (C V : Type) where
  orig : C
  cell : Option V
deriving DecidableEq

/-- `p := o.Ptr()` for an `Option[T]`. -/
def mkOptionPtrView {V : Type} (o : GoOption V) : PtrView (GoOption V) V :=
  ⟨o, o.Ptr⟩

/-- `p := n.ToPtr()` for a `Nullable[T]`. -/
def mkNullablePtrView {V : Type} (n : Nullable V) : PtrView (Nullable V) V :=
  ⟨n, n.ToPtr⟩

/-- `*p = x` (a no-op when `p` is nil): the store updates the cell the
pointer targets; the original container occupies different memory and is
untouched. -/
def PtrView.store {C V : Type} (s : PtrView C V) (x : V) : PtrView C V :=
  ⟨s.orig, s.cell.map fun _ => x⟩

/-! ## Helper lemmas -/

theorem scanApply_error_state {F V : Type} (n : Nullable V) (out : ScanOutcome F V)
    (e : ScanErr F) (h : (scanApply n out).error = some e) :
    (scanApply n out).state = n := by
  cases out <;> simp_all [scanApply]

theorem nullableScan_error_state {F V : Type} (zero : V)
    (dec : GoVal F → ScanOutcome F V) (n : Nullable V) (src : GoVal F)
    (e : ScanErr F) (h : (nullableScan zero dec n src).error = some e) :
    (nullableScan zero dec n src).state = n := by
  cases src with
  | vNull => simp [nullableScan] at h
  | vInt64 i => exact scanApply_error_state n _ e h
  | vFloat64 f => exact scanApply_error_state n _ e h
  | vBool b => exact scanApply_error_state n _ e h
  | vBytes s => exact scanApply_error_state n _ e h
  | vString s => exact scanApply_error_state n _ e h
  | vTime => exact scanApply_error_state n _ e h

theorem optionOp_preserves_invZero {V : Type} (zero : V) (dec : String → Option V)
    (o : GoOption V) (op : OptionOp V) (h : o.invZero zero) :
    (op.apply zero dec o).invZero zero := by
  cases op with
  | set v => intro hh; simp [OptionOp.apply, GoOption.Set] at hh
  | unset => intro _; rfl
  | unmarshal data =>
      simp only [OptionOp.apply, GoOption.UnmarshalJSON]
      by_cases hd : data = "null"
      · simp only [if_pos hd]; intro _; rfl
      · simp only [if_neg hd]
        cases dec data with
        | none => exact h
        | some v => intro hh; simp at hh

theorem nullableOp_preserves_invZero {F V : Type} (zero : V)
    (dec : GoVal F → ScanOutcome F V) (jdec : String → Option V)
    (n : Nullable V) (op : NullableOp F V) (h : n.invZero zero) :
    (op.apply zero dec jdec n).invZero zero := by
  cases op with
  | scan src =>
      simp only [NullableOp.apply, nullableScan]
      cases src with
      | vNull => intro _; rfl
      | vInt64 i => cases dec (.vInt64 i) with
          | ok v => intro hh; simp [scanApply] at hh
          | err e => exact h
          | panicked => exact h
      | vFloat64 f => cases dec (.vFloat64 f) with
          | ok v => intro hh; simp [scanApply] at hh
          | err e => exact h
          | panicked => exact h
      | vBool b => cases dec (.vBool b) with
          | ok v => intro hh; simp [scanApply] at hh
          | err e => exact h
          | panicked => exact h
      | vBytes s => cases dec (.vBytes s) with
          | ok v => intro hh; simp [scanApply] at hh
          | err e => exact h
          | panicked => exact h
      | vString s => cases dec (.vString s) with
          | ok v => intro hh; simp [scanApply] at hh
          | err e => exact h
          | panicked => exact h
      | vTime => cases dec .vTime with
          | ok v => intro hh; simp [scanApply] at hh
          | err e => exact h
          | panicked => exact h
  | unmarshal data =>
      simp only [NullableOp.apply, Nullable.UnmarshalJSON]
      by_cases hd : data = "null"
      · simp only [if_pos hd]; intro _; rfl
      · simp only [if_neg hd]
        cases jdec data with
        | none => exact h
        | some v => intro hh; simp at hh

theorem runOptionOps_invZero {V : Type} (zero : V) (dec : String → Option V)
    (init : GoOption V) (ops : List (OptionOp V)) (h : init.invZero zero) :
    (runOptionOps zero dec init ops).invZero zero := by
  induction ops generalizing init with
  | nil => exact h
  | cons op rest ih =>
      simp only [runOptionOps, List.foldl]
      exact ih _ (optionOp_preserves_invZero zero dec init op h)

theorem runNullableOps_invZero {F V : Type} (zero : V)
    (dec : GoVal F → ScanOutcome F V) (jdec : String → Option V)
    (init : Nullable V) (ops : List (NullableOp F V)) (h : init.invZero zero) :
    (runNullableOps zero dec jdec init ops).invZero zero := by
  induction ops generalizing init with
  | nil => exact h
  | cons op rest ih =>
      simp only [runNullableOps, List.foldl]
      exact ih _ (nullableOp_preserves_invZero zero dec jdec init op h)

theorem optionCtor_invZero {V : Type} (zero : V) (o : GoOption V)
    (h : optionCtorResult zero o) : o.invZero zero := by
  rcases h with ⟨v, rfl⟩ | rfl | ⟨p, rfl⟩
  · intro hh; simp [Some] at hh
  · intro _; rfl
  · cases p with
    | none => intro _; rfl
    | some v => intro hh; simp [FromPtr, Some] at hh

theorem nullableCtor_invZero {V : Type} (zero : V) (n : Nullable V)
    (h : nullableCtorResult zero n) : n.invZero zero := by
  rcases h with ⟨v, rfl⟩ | rfl | ⟨p, rfl⟩
  · intro hh; simp [NullableOf] at hh
  · intro _; rfl
  · cases p with
    | none => intro _; rfl
    | some v => intro hh; simp [NullableFromPtr, NullableOf] at hh

/-! ## Claim theorems -/

/-- Claim C1 (code bug at the failing input): scanning the 64-bit integer 5
into a `Nullable[int8]` destination — 5 lies within int8's specified range
[-128, 127] — does not store 5: it fails with the "value 5 overflows
destination type int8" error, because the signed range check compares
against `reflect.Zero(destType).Int()` and `reflect.New(destType).Elem().Int()`,
which are both 0 rather than the width's minimum and maximum. -/
theorem scanInt_in_range_rejected :
    IntKind.specMin .int8 ≤ 5 ∧ (5 : Int) ≤ IntKind.specMax .int8
  ∧ scanIntVal (F := Unit) .int8 (.vInt64 5) = .err (.overflowSigned 5 .int8)
  ∧ scanIntVal (F := Unit) .int8 (.vInt64 5) ≠ .ok 5 := by decide

/-- Claim C2 (code bug at the failing input): the driver encode of a valid
`Nullable[uint8]` holding 5 correctly yields the int64 driver value 5, and
encoding a 64-bit unsigned value above the signed-64 maximum correctly
fails with the unsigned-overflow error; but decoding the int64 value 5
back into `Nullable[uint8]` — 5 is within uint8's range — fails with
"value 5 overflows unsigned type uint8", because the decode-side check
tests `OverflowUint(math.MaxUint64)` (true for every width below 64)
instead of testing the scanned value, so the round trip does not return 5. -/
theorem uint_roundtrip_encode_ok_decode_fails :
    nullableValueUint (NullableOf 5) = .ok (some 5)
  ∧ nullableValueUint (NullableOf (2 ^ 63)) = .error (.unsignedOverflow (2 ^ 63))
  ∧ (5 : Int) ≤ IntKind.specMax .uint8
  ∧ (nullableScan (0 : Int) (scanIntVal (F := Unit) .uint8) (Null 0) (.vInt64 5)).error
      = some (.overflowUnsigned 5 .uint8) :=
  ⟨rfl, rfl, by decide, by decide⟩

/-- Claim C3 (code bug at the failing input): the byte sequence "123"
parses as the base-10 integer 123, yet scanning it into `Nullable[int64]`
does not yield a valid container holding 123 — it fails with the bogus
"value 123 overflows destination type int64" error (the zero/zero signed
range check).  The other two parts of the claim do hold at these inputs:
scanning "abc" returns a parse error and leaves the container Invalid, and
a source that is neither an int64 nor a byte sequence (here a time.Time)
fails as an unsupported source type. -/
theorem scan_bytes_integer_bug :
    parseInt64 "123" = some 123
  ∧ (nullableScan (0 : Int) (scanIntVal (F := Unit) .int64) (Null 0) (.vBytes "123")).error
      = some (.overflowSigned 123 .int64)
  ∧ (nullableScan (0 : Int) (scanIntVal (F := Unit) .int64) (Null 0) (.vBytes "123")).state
      = Null 0
  ∧ (nullableScan (0 : Int) (scanIntVal (F := Unit) .int64) (Null 0) (.vBytes "abc")).error
      = some (.parseIntFailed "abc")
  ∧ (nullableScan (0 : Int) (scanIntVal (F := Unit) .int64) (Null 0) (.vBytes "abc")).state
      = Null 0
  ∧ (nullableScan (0 : Int) (scanIntVal (F := Unit) .int64) (Null 0) .vTime).error
      = some (.unsupportedIntSource .vTime) := by decide

/-- Claim C4: for every element type (its JSON codec given by `enc`/`dec`)
marshaling a `None` Option or an invalid Nullable succeeds and produces
exactly the JSON literal `null`; unmarshaling the literal `null` into
either container, from any prior state, produces the absent container with
the value reset to the element type's zero and no error; consequently
encoding an absent container and decoding the result yields the absent
container again. -/
theorem json_null_roundtrip :
    ∀ (V : Type) (zero : V) (enc : V → String) (dec : String → Option V)
      (o : GoOption V) (n : Nullable V),
      (None zero).MarshalJSON enc = "null"
    ∧ (Null zero).MarshalJSON enc = "null"
    ∧ o.UnmarshalJSON zero dec "null" = ⟨None zero, false⟩
    ∧ n.UnmarshalJSON zero dec "null" = ⟨Null zero, false⟩
    ∧ (o.UnmarshalJSON zero dec ((None zero).MarshalJSON enc)).state = None zero
    ∧ (n.UnmarshalJSON zero dec ((Null zero).MarshalJSON enc)).state = Null zero := by
  intro V zero enc dec o n
  exact ⟨rfl, rfl, rfl, rfl, rfl, rfl⟩

/-- ReflectOps for the element type `any` restricted to values that are
either a nil interface value (`none`) or a boxed int (`some i`):
`reflect.TypeOf` yields a nil `reflect.Type` on the former and the
comparable type `int` on the latter; `reflect.DeepEqual` compares the
boxed values. -/
def anyIntReflectOps : ReflectOps (Option Int) where
  typeOf := fun v => match v with
    | none => none
    | some _ => some true
  deepEqual := fun a b => decide (a = b)

/-- Claim C5 counterexample: `Equals` on two valid `Nullable[any]`
containers holding nil interface values does not return a boolean at all —
`reflect.TypeOf(n.value)` is a nil `reflect.Type` and the `Comparable()`
call on it panics — contradicting the claim's "without ever raising a
runtime fault". -/
theorem equals_nil_interface_panics :
    (NullableOf (none : Option Int)).Equals anyIntReflectOps (NullableOf none)
      = .panicked
  ∧ (NullableOf (none : Option Int)).Equals anyIntReflectOps (NullableOf none)
      ≠ .val false
  ∧ (NullableOf (none : Option Int)).Equals anyIntReflectOps (NullableOf none)
      ≠ .val true := by decide

/-- Claim C5 as amended: for every pair of Nullable containers of the same
element type, `Equals` returns true when both are invalid; returns false
when exactly one is valid; and when both are valid the result is decided
by the receiver value's dynamic type — if the value carries no dynamic
type (a nil interface value) the call panics, if its type is not
equality-comparable the result is false, and otherwise the result is
exactly `reflect.DeepEqual` of the two values (the element type's
equality). -/
theorem equals_spec_amended {V : Type} (ops : ReflectOps V) (n m : Nullable V) :
    (n.valid = false → m.valid = false → n.Equals ops m = .val true)
  ∧ (n.valid ≠ m.valid → n.Equals ops m = .val false)
  ∧ (n.valid = true → m.valid = true →
        (ops.typeOf n.value = none → n.Equals ops m = .panicked)
      ∧ (ops.typeOf n.value = some false → n.Equals ops m = .val false)
      ∧ (ops.typeOf n.value = some true →
            n.Equals ops m = .val (ops.deepEqual n.value m.value))) := by
  refine ⟨?_, ?_, ?_⟩
  · intro hn hm; simp [Nullable.Equals, hn, hm]
  · intro h; simp [Nullable.Equals, h]
  · intro hn hm
    refine ⟨?_, ?_, ?_⟩ <;> intro ht <;> simp [Nullable.Equals, hn, hm, ht]

/-- ReflectOps for the concrete element type `int`: always comparable, and
`reflect.DeepEqual` is integer equality. -/
def intReflectOps : ReflectOps Int where
  typeOf := fun _ => some true
  deepEqual := fun a b => decide (a = b)

/-- Witness for the amended C5 theorem at the spec's own test vector:
`Null[int]().Equals(Null[int]())` is true, `NullableOf(0).Equals(Null[int]())`
is false, and `NullableOf(0).Equals(NullableOf(0))` is true. -/
theorem equals_spec_amended_witness :
    (Null (0 : Int)).Equals intReflectOps (Null 0) = .val true
  ∧ (NullableOf (0 : Int)).Equals intReflectOps (Null 0) = .val false
  ∧ (NullableOf (0 : Int)).Equals intReflectOps (NullableOf 0) = .val true :=
  ⟨(equals_spec_amended intReflectOps (Null 0) (Null 0)).1 rfl rfl,
   (equals_spec_amended intReflectOps (NullableOf 0) (Null 0)).2.1 (by decide),
   by
     have h := ((equals_spec_amended intReflectOps (NullableOf (0 : Int))
       (NullableOf 0)).2.2 rfl rfl).2.2 rfl
     simpa [intReflectOps] using h⟩

/-- Claim C6: for both container types and every sequence of mutating
public operations (Set/Unset/UnmarshalJSON on Option; Scan/UnmarshalJSON
on Nullable, for any per-category decode and any element JSON decoder)
starting from any constructor result (Some/None/FromPtr, resp.
NullableOf/Null/NullableFromPtr), whenever the container is absent its
stored value equals the element type's zero value: every operation that
clears presence (Unset, Scan of a nil source, UnmarshalJSON of null,
construction from a nil pointer, None/Null) explicitly resets the stored
value to zero, and no other operation produces an absent state. -/
theorem absent_implies_zero_invariant :
    (∀ (V : Type) (zero : V) (dec : String → Option V) (init : GoOption V)
        (ops : List (OptionOp V)), optionCtorResult zero init →
        (runOptionOps zero dec init ops).invZero zero)
  ∧ (∀ (F V : Type) (zero : V) (dec : GoVal F → ScanOutcome F V)
        (jdec : String → Option V) (init : Nullable V)
        (ops : List (NullableOp F V)), nullableCtorResult zero init →
        (runNullableOps zero dec jdec init ops).invZero zero) :=
  ⟨fun _ zero dec init ops h =>
      runOptionOps_invZero zero dec init ops (optionCtor_invZero zero init h),
   fun _ _ zero dec jdec init ops h =>
      runNullableOps_invZero zero dec jdec init ops (nullableCtor_invZero zero init h)⟩

/-- Witness for C6 at concrete inputs: an Option[int] constructed with
None, mutated by Set 5 then Unset, satisfies absent-implies-zero; and a
Nullable[int64] constructed valid with 3, then Scanned from a nil source,
satisfies it too. -/
theorem absent_implies_zero_invariant_witness :
    (runOptionOps (0 : Int) (fun _ => none) (None 0)
        [.set 5, .unset]).invZero 0
  ∧ (runNullableOps (0 : Int) (scanIntVal (F := Unit) .int64) (fun _ => none)
        (NullableOf 3) [.scan .vNull]).invZero 0 :=
  ⟨absent_implies_zero_invariant.1 Int 0 (fun _ => none) (None 0)
      [.set 5, .unset] (Or.inr (Or.inl rfl)),
   absent_implies_zero_invariant.2 Unit Int 0 (scanIntVal .int64) (fun _ => none)
      (NullableOf 3) [.scan .vNull] (Or.inl ⟨3, rfl⟩)⟩

/-- Claim C7 (code bug on its uniqueness clause): `Unwrap` on an absent
Option aborts with the `MissingValue` error and on a present Option
returns the stored value (the receiver is a value copy, so the container
is unmodified); but this abort is NOT the only abort-style failure in the
system — `Scan` panics inside `reflect.Value.Convert` when decoding the
textual source "5" into `Nullable[uint64]`, because after validation it
converts the original `[]byte` source rather than the parsed integer. -/
theorem unwrap_missing_value_not_sole_abort :
    (None (0 : Int)).Unwrap = .error .missingValue
  ∧ (Some (7 : Int)).Unwrap = .ok 7
  ∧ (nullableScan (0 : Int) (scanIntVal (F := Unit) .uint64) (Null 0)
        (.vBytes "5")).panicked = true :=
  ⟨rfl, rfl, by decide⟩

/-- Claim C8 (code bug): `FirstNonZero` as written returns the first value
that IS zero together with true — on [0, 0, 1, 42] it returns (0, true)
where its doc comment, its tests and the spec-modelled `firstNonZeroSpec`
expect (1, true); on the all-non-zero list [1, 2] it returns (0, false)
where (1, true) is expected.  The loop body tests `IsZero(v)` instead of
`!IsZero(v)`. -/
theorem firstNonZero_returns_first_zero :
    FirstNonZero (0 : Int) [0, 0, 1, 42] = (0, true)
  ∧ firstNonZeroSpec (0 : Int) [0, 0, 1, 42] = (1, true)
  ∧ FirstNonZero (0 : Int) [1, 2] = (0, false)
  ∧ firstNonZeroSpec (0 : Int) [1, 2] = (1, true) := by decide

/-- Claim C9: for every element type that does not implement `sql.Scanner`
(covered here by the four destination categories `Scan` dispatches on:
integer kinds, string, float kinds, and every other kind), whenever `Scan`
returns an error both fields of the container are exactly what they were
before the call — every error return precedes the value and validity
assignments (a nil source never errors, so the non-nil hypothesis of the
claim is subsumed by the error hypothesis). -/
theorem scan_error_atomicity :
    (∀ (F : Type) (k : IntKind) (zero : Int) (n : Nullable Int) (src : GoVal F)
        (e : ScanErr F),
        (nullableScan zero (scanIntVal k) n src).error = some e →
        (nullableScan zero (scanIntVal k) n src).state = n)
  ∧ (∀ (F : Type) (zero : String) (n : Nullable String) (src : GoVal F)
        (e : ScanErr F),
        (nullableScan zero scanStringVal n src).error = some e →
        (nullableScan zero scanStringVal n src).state = n)
  ∧ (∀ (F : Type) (ops : Float64Ops F) (k : FloatKind) (zero : F)
        (n : Nullable F) (src : GoVal F) (e : ScanErr F),
        (nullableScan zero (scanFloatVal ops k) n src).error = some e →
        (nullableScan zero (scanFloatVal ops k) n src).state = n)
  ∧ (∀ (F V : Type) (zero : V) (n : Nullable V) (src : GoVal F) (e : ScanErr F),
        (nullableScan zero scanOtherVal n src).error = some e →
        (nullableScan zero scanOtherVal n src).state = n) :=
  ⟨fun _ k zero n src e h => nullableScan_error_state zero (scanIntVal k) n src e h,
   fun _ zero n src e h => nullableScan_error_state zero scanStringVal n src e h,
   fun _ ops k zero n src e h =>
      nullableScan_error_state zero (scanFloatVal ops k) n src e h,
   fun _ _ zero n src e h => nullableScan_error_state zero scanOtherVal n src e h⟩

/-- Witness for C9 at a concrete input: scanning the non-numeric byte
sequence "abc" into a valid Nullable[int64] holding 7 returns the parse
error and leaves the container exactly as it was. -/
theorem scan_error_atomicity_witness :
    (nullableScan (0 : Int) (scanIntVal (F := Unit) .int64) (NullableOf 7)
        (.vBytes "abc")).error = some (.parseIntFailed "abc")
  ∧ (nullableScan (0 : Int) (scanIntVal (F := Unit) .int64) (NullableOf 7)
        (.vBytes "abc")).state = NullableOf 7 :=
  ⟨by decide,
   scan_error_atomicity.1 Unit .int64 0 (NullableOf 7) (.vBytes "abc")
      (.parseIntFailed "abc") (by decide)⟩

/-- Claim C10: for every Option satisfying the absent-implies-zero
invariant, `FromPtr(o.Ptr())` restores an equal container, and likewise
`NullableFromPtr(n.ToPtr())` for every such Nullable; moreover the pointer
returned by `Ptr`/`ToPtr` targets a cell of a value-receiver copy, so a
store through it leaves the original container unchanged. -/
theorem ptr_roundtrip :
    (∀ (V : Type) (zero : V) (o : GoOption V), o.invZero zero →
        FromPtr zero o.Ptr = o ∧ ∀ x, ((mkOptionPtrView o).store x).orig = o)
  ∧ (∀ (V : Type) (zero : V) (n : Nullable V), n.invZero zero →
        NullableFromPtr zero n.ToPtr = n
      ∧ ∀ x, ((mkNullablePtrView n).store x).orig = n) := by
  constructor
  · intro V zero o h
    refine ⟨?_, fun x => rfl⟩
    cases o with
    | mk v hasv =>
      cases hasv
      · have hv : v = zero := h rfl
        subst hv
        rfl
      · rfl
  · intro V zero n h
    refine ⟨?_, fun x => rfl⟩
    cases n with
    | mk v validv =>
      cases validv
      · have hv : v = zero := h rfl
        subst hv
        rfl
      · rfl

/-- Witness for C10 at concrete inputs: the present Option holding 3 and
the invalid Nullable round trip through their pointer views. -/
theorem ptr_roundtrip_witness :
    FromPtr (0 : Int) (Some 3).Ptr = Some 3
  ∧ NullableFromPtr (0 : Int) (Null 0).ToPtr = Null 0 :=
  ⟨(ptr_roundtrip.1 Int 0 (Some 3) (by intro h; simp [Some] at h)).1,
   (ptr_roundtrip.2 Int 0 (Null 0) (fun _ => rfl)).1⟩
